import Mathlib

/-!
# Verification of the YouTube analytics pipeline (`src/main.py`)

A shallow embedding of the retrieval-and-enrichment pipeline of `main.py`:
paginated id collection (`get_video_ids`), batched detail fetches
(`get_video_details`), channel statistics (`get_channel_stats`), live-stream
probing (`get_live_streams`), the enrichment step (`preprocess_video_data`),
the audience-insights operation (`get_audience_insights`), and the `main`
orchestration.

Modelling conventions:
* provider interactions (`request.execute()`) are modelled by explicit
  functions, or by the finite sequence of responses the provider gives to the
  successive requests of one traversal;
* a Python exception that escapes a function is modelled by `Except.error`;
  a function whose exceptions are all caught internally returns a plain value;
* pandas cells are `Option`-typed (`None`/`NaN` is `none`);
* floats are modelled by `ℚ` (every value the pipeline computes is rational).
-/

set_option maxRecDepth 2000

namespace NewsAI

/-- Decidable equality for `Except`, so that witnesses can be evaluated by
`decide`. -/
instance {ε α : Type} [DecidableEq ε] [DecidableEq α] :
    DecidableEq (Except ε α) := fun a b =>
  match a, b with
  | Except.ok x, Except.ok y =>
    if h : x = y then isTrue (by rw [h])
    else isFalse (by intro hc; cases hc; exact h rfl)
  | Except.error x, Except.error y =>
    if h : x = y then isTrue (by rw [h])
    else isFalse (by intro hc; cases hc; exact h rfl)
  | Except.ok _, Except.error _ => isFalse (by intro hc; cases hc)
  | Except.error _, Except.ok _ => isFalse (by intro hc; cases hc)

/-! ## Decimal literal parsing (shared by `pd.to_numeric` and `isodate`) -/

/-- Splits a leading run of ASCII digits off a character list. -/
def takeDigits : List Char → List Char × List Char
  | [] => ([], [])
  | c :: cs =>
    if c.isDigit then
      let (ds, rest) := takeDigits cs
      (c :: ds, rest)
    else ([], c :: cs)

/-- Value of a digit character. -/
def digitVal (c : Char) : Nat := c.toNat - 48

/-- Value of a run of decimal digits. -/
def digitsVal (ds : List Char) : Nat :=
  ds.foldl (fun acc c => 10 * acc + digitVal c) 0

/-- Value of a fractional digit run (the part after the decimal point). -/
def fracVal (ds : List Char) : ℚ :=
  (digitsVal ds : ℚ) / ((10 : ℚ) ^ ds.length)

/-- Parses a decimal number `digits[(.|,)digits]` from the front of a
character list, returning the value and the unconsumed suffix.  Used by the
ISO-8601 duration grammar, which allows `,` as well as `.` for fractions. -/
def parseNumQ (cs : List Char) : Option (ℚ × List Char) :=
  match takeDigits cs with
  | ([], _) => none
  | (ds, rest) =>
    match rest with
    | sep :: rest2 =>
      if sep = '.' ∨ sep = ',' then
        match takeDigits rest2 with
        | ([], _) => none
        | (fs, rest3) => some ((digitsVal ds : ℚ) + fracVal fs, rest3)
      else
        some ((digitsVal ds : ℚ), rest)
    | [] => some ((digitsVal ds : ℚ), [])

/-- Parses an unsigned Python float literal: `digits`, `digits.`,
`digits.digits` or `.digits`, with nothing left over. -/
def parseUnsigned (cs : List Char) : Option ℚ :=
  match cs with
  | '.' :: rest =>
    match takeDigits rest with
    | ([], _) => none
    | (fs, []) => some (fracVal fs)
    | (_, _ :: _) => none
  | _ =>
    match takeDigits cs with
    | ([], _) => none
    | (ds, []) => some ((digitsVal ds : ℚ))
    | (ds, '.' :: rest) =>
      match takeDigits rest with
      | (fs, []) => some ((digitsVal ds : ℚ) + fracVal fs)
      | (_, _ :: _) => none
    | (_, _ :: _) => none

/-- Model of `pd.to_numeric(x, errors='coerce')` on one string cell: an
optionally signed decimal literal parses to its value, anything else coerces
to `NaN` (`none`).  (Exotic inputs pandas also accepts — exponents,
`inf`/`nan` spellings, surrounding whitespace — are outside the model; no
claim exercises them.) -/
def toNumeric (s : String) : Option ℚ :=
  match s.toList with
  | '-' :: rest => (parseUnsigned rest).map (fun q => -q)
  | '+' :: rest => parseUnsigned rest
  | cs => parseUnsigned cs

/-- Python `int()` of a float: truncation toward zero. -/
def truncInt (q : ℚ) : Int :=
  if q < 0 then -((-q).floor) else q.floor

/-- Model of one cell of
`pd.to_numeric(col, errors='coerce').fillna(0).astype(int)` from
`preprocess_video_data`: an absent cell or a parse failure becomes 0, a
parsed number is truncated to an integer. -/
def coerceCount (x : Option String) : Int :=
  match x with
  | none => 0
  | some s =>
    match toNumeric s with
    | none => 0
    | some q => truncInt q

/-! ## ISO-8601 durations (`isodate.parse_duration(...).total_seconds()`)

The model covers the duration grammar the pipeline can meet:
`P[nW][nD][T[nH][nM][nS]]`, integer or fractional components.  Strings the
model does not cover (year/month components, the sign prefix, the alternative
datetime format) are treated as unparseable; no claim exercises them. -/

/-- Parses one optional duration component `<number><unit>` from the front of
the character list; if the next token is not a number followed by exactly the
unit `u`, the component is absent (value 0, input unconsumed). -/
def optComp (u : Char) (cs : List Char) : ℚ × List Char :=
  match parseNumQ cs with
  | some (q, c :: rest) => if c = u then (q, rest) else (0, cs)
  | _ => (0, cs)

/-- Model of `isodate.parse_duration(s).total_seconds()`: total seconds of an
ISO-8601 duration string, or `none` when the string does not match the
grammar (in which case `isodate.parse_duration` raises `ISO8601Error`). -/
def parse_duration (s : String) : Option ℚ :=
  match s.toList with
  | 'P' :: rest =>
    if rest = [] then none
    else
      let (w, r1) := optComp 'W' rest
      let (d, r2) := optComp 'D' r1
      match r2 with
      | [] => some (w * 604800 + d * 86400)
      | 'T' :: r3 =>
        let (h, r4) := optComp 'H' r3
        let (m, r5) := optComp 'M' r4
        let (sec, r6) := optComp 'S' r5
        if r6 = [] then some (w * 604800 + d * 86400 + h * 3600 + m * 60 + sec)
        else none
      | _ => none
  | _ => none

/-- The `durationSecs` column rule (main.py lines 159–161):
`isodate.parse_duration(x).total_seconds() if pd.notnull(x) else None`.
Only the null check guards the call, so a present but unparseable string
raises `ISO8601Error` out of `.apply`, modelled by `Except.error`. -/
def durationStep (x : Option String) : Except String (Option ℚ) :=
  match x with
  | none => Except.ok none
  | some s =>
    match parse_duration s with
    | some q => Except.ok (some q)
    | none => Except.error "ISO8601Error"

/-! ## Timestamps (`pd.to_datetime(col, errors='coerce')` and `.dt.day_name()`)

The model covers ISO-8601 timestamps `YYYY-MM-DD`, optionally followed by
`THH:MM:SS` or ` HH:MM:SS`, optionally suffixed `Z`, with field-range
validation.  Anything else — including dates outside pandas' representable
`Timestamp` range, approximated here as years 1678–2261 — coerces to `NaT`
(`none`).  Other layouts pandas can also parse are outside the model; no
claim exercises them. -/

/-- Gregorian leap-year rule. -/
def isLeap (y : Nat) : Bool :=
  (y % 4 == 0 && y % 100 != 0) || y % 400 == 0

/-- Number of days in a month. -/
def daysInMonth (y m : Nat) : Nat :=
  if m = 2 then (if isLeap y then 29 else 28)
  else if m = 4 ∨ m = 6 ∨ m = 9 ∨ m = 11 then 30 else 31

/-- A validated calendar timestamp (pandas `Timestamp`, to the second). -/
structure Timestamp where
  year : Nat
  month : Nat
  day : Nat
  hour : Nat
  minute : Nat
  second : Nat
deriving DecidableEq

/-- Days from 0000-03-01 to the given date (days-from-civil algorithm,
restricted to the positive years the parser admits). -/
def dayNumber (t : Timestamp) : Nat :=
  let y := if t.month ≤ 2 then t.year - 1 else t.year
  let era := y / 400
  let yoe := y - era * 400
  let mp := if t.month > 2 then t.month - 3 else t.month + 9
  let doy := (153 * mp + 2) / 5 + t.day - 1
  let doe := yoe * 365 + yoe / 4 - yoe / 100 + doy
  era * 146097 + doe

/-- Model of pandas `.dt.day_name()` on a valid timestamp: the English
weekday name (locale-invariant). -/
def weekdayName (t : Timestamp) : String :=
  ["Monday", "Tuesday", "Wednesday", "Thursday", "Friday", "Saturday",
   "Sunday"].getD ((dayNumber t + 2) % 7) "Monday"

/-- Range validation performed by the timestamp constructor. -/
def validTimestamp (t : Timestamp) : Bool :=
  1678 ≤ t.year && t.year ≤ 2261 &&
  1 ≤ t.month && t.month ≤ 12 &&
  1 ≤ t.day && t.day ≤ daysInMonth t.year t.month &&
  t.hour ≤ 23 && t.minute ≤ 59 && t.second ≤ 59

/-- Two-digit field. -/
def twoDigits (c1 c2 : Char) : Option Nat :=
  if c1.isDigit && c2.isDigit then some (10 * digitVal c1 + digitVal c2)
  else none

/-- Model of `pd.to_datetime(s, errors='coerce')` on one string cell. -/
def to_datetime_str (s : String) : Option Timestamp :=
  match s.toList with
  | y1 :: y2 :: y3 :: y4 :: '-' :: m1 :: m2 :: '-' :: d1 :: d2 :: rest =>
    (do
      let yh ← twoDigits y1 y2
      let yl ← twoDigits y3 y4
      let mo ← twoDigits m1 m2
      let dy ← twoDigits d1 d2
      let (hh, mm, ss) ←
        match rest with
        | [] => some (0, 0, 0)
        | sep :: h1 :: h2 :: ':' :: n1 :: n2 :: ':' :: s1 :: s2 :: tail =>
          if sep = 'T' ∨ sep = ' ' then do
            let hh ← twoDigits h1 h2
            let mm ← twoDigits n1 n2
            let ss ← twoDigits s1 s2
            match tail with
            | [] => some (hh, mm, ss)
            | ['Z'] => some (hh, mm, ss)
            | _ => none
          else none
        | _ => none
      let t : Timestamp :=
        ⟨100 * yh + yl, mo, dy, hh, mm, ss⟩
      if validTimestamp t then some t else none)
  | _ => none

/-- `pd.to_datetime` on an optional cell: `None`/`NaN` coerces to `NaT`. -/
def to_datetime (x : Option String) : Option Timestamp :=
  x.bind to_datetime_str

/-! ## Raw video rows (`get_video_details`, main.py lines 102–112)

Each row of the details DataFrame is the dict built at lines 108–112: the
video id plus, for every key of `stats_to_keep`, the value
`video.get(section, {}).get(key)` — so every column exists on every row, and
any of them may be `None`. -/

/-- One row of the raw video DataFrame. -/
structure RawVideo where
  video_id : Option String
  channelTitle : Option String
  title : Option String
  description : Option String
  tags : Option (List String)
  publishedAt : Option String
  viewCount : Option String
  likeCount : Option String
  favoriteCount : Option String
  commentCount : Option String
  duration : Option String
  definition : Option String
  caption : Option String
deriving DecidableEq

/-- One row after `preprocess_video_data`: the raw columns with the four
count columns made integer and `publishedAt` parsed, plus the derived
columns. -/
structure EnrichedVideo where
  video_id : Option String
  channelTitle : Option String
  title : Option String
  description : Option String
  tags : Option (List String)
  publishedAt : Option Timestamp
  viewCount : Int
  likeCount : Int
  favoriteCount : Int
  commentCount : Int
  duration : Option String
  definition : Option String
  caption : Option String
  publishDayName : Option String
  durationSecs : Option ℚ
  tagsCount : Nat
  likeRatio : ℚ
  commentRatio : ℚ
  titleLength : Nat
deriving DecidableEq

/-- The enriched row built from a raw row and the already-computed
`durationSecs` value: count coercion, timestamp parsing and weekday name,
tag count, ratio guards and title length, exactly the column rules of
main.py lines 153–169. -/
def enrichRowWith (r : RawVideo) (durationSecs : Option ℚ) : EnrichedVideo :=
  { video_id := r.video_id
    channelTitle := r.channelTitle
    title := r.title
    description := r.description
    tags := r.tags
    publishedAt := to_datetime r.publishedAt
    viewCount := coerceCount r.viewCount
    likeCount := coerceCount r.likeCount
    favoriteCount := coerceCount r.favoriteCount
    commentCount := coerceCount r.commentCount
    duration := r.duration
    definition := r.definition
    caption := r.caption
    publishDayName := (to_datetime r.publishedAt).map weekdayName
    durationSecs := durationSecs
    tagsCount := (r.tags.map List.length).getD 0
    likeRatio :=
      if coerceCount r.viewCount = 0 then 0
      else (coerceCount r.likeCount : ℚ) / (coerceCount r.viewCount : ℚ) * 1000
    commentRatio :=
      if coerceCount r.viewCount = 0 then 0
      else (coerceCount r.commentCount : ℚ) / (coerceCount r.viewCount : ℚ) * 1000
    titleLength := (r.title.map String.length).getD 0 }

/-- The enrichment of one row (`preprocess_video_data`, main.py lines
153–169).  pandas applies the steps column-by-column, but every derived
column depends only on its own row, so the row-wise composition is
observationally the same; the one step that can raise (the duration parse,
see `durationStep`) makes the whole call raise either way. -/
def enrichRow (r : RawVideo) : Except String EnrichedVideo :=
  match durationStep r.duration with
  | Except.error e => Except.error e
  | Except.ok d => Except.ok (enrichRowWith r d)

/-- Model of `preprocess_video_data` on the video DataFrame.  In this
program the DataFrame reaching it is built by concatenating
`pd.DataFrame(all_video_info)` frames, so it has columns exactly when it has
at least one row; on the empty frame `video_df['viewCount']` raises
`KeyError` (main.py line 155) because the frame has no columns. -/
def preprocess_video_data (rows : List RawVideo) :
    Except String (List EnrichedVideo) :=
  if rows.isEmpty then Except.error "KeyError: viewCount"
  else rows.mapM enrichRow

/-! ## Provider failures -/

/-- The data carried by a `googleapiclient` `HttpError`. -/
structure ApiErr where
  status : Nat
  content : String
deriving DecidableEq

/-! ## Paginated id collection (`get_video_ids`, main.py lines 62–87) -/

/-- The `contentDetails` object of one playlist item (the source indexes
`item['contentDetails']` unconditionally, so the object itself is always
present; its `videoId` key may be missing). -/
structure PlaylistItemContentDetails where
  videoId : Option String
deriving DecidableEq

/-- One item of a `playlistItems().list` response. -/
structure PlaylistItem where
  contentDetails : PlaylistItemContentDetails
deriving DecidableEq

/-- One page of a `playlistItems().list` response: `response.get('items', [])`
and `response.get('nextPageToken')`. -/
structure Page where
  items : List PlaylistItem
  nextPageToken : Option String
deriving DecidableEq

/-- Python truthiness of the next-page token
(`if not next_page_token: break`): absent or empty is falsy. -/
def truthyToken : Option String → Bool
  | none => false
  | some t => t ≠ ""

/-- The ids one page contributes (main.py lines 77–80): each item's
`contentDetails.get('videoId')`, kept only when truthy (`if vid:`). -/
def pageIds (p : Page) : List String :=
  p.items.filterMap (fun it =>
    match it.contentDetails.videoId with
    | some v => if v = "" then none else some v
    | none => none)

/-- `get_video_ids`: the pagination loop, driven by the finite sequence of
responses the provider gives to the successive requests of this traversal.
An `HttpError` response is logged and breaks the loop (returning what was
accumulated); a falsy next-page token also ends the loop.  The function
returns a plain list: no exception escapes it. -/
def get_video_ids : List (Except ApiErr Page) → List String
  | [] => []
  | Except.error _ :: _ => []
  | Except.ok p :: rest =>
    pageIds p ++ (if truthyToken p.nextPageToken then get_video_ids rest else [])

/-! ## Batched detail fetch (`get_video_details`, main.py lines 89–115) -/

/-- The `snippet` section of a `videos().list` item. -/
structure Snippet where
  channelTitle : Option String
  title : Option String
  description : Option String
  tags : Option (List String)
  publishedAt : Option String
deriving DecidableEq

/-- The `statistics` section of a `videos().list` item. -/
structure Statistics where
  viewCount : Option String
  likeCount : Option String
  favoriteCount : Option String
  commentCount : Option String
deriving DecidableEq

/-- The `contentDetails` section of a `videos().list` item. -/
structure VideoContentDetails where
  duration : Option String
  definition : Option String
  caption : Option String
deriving DecidableEq

/-- One item of a `videos().list` response; every section is optional
(`video.get(section, {})`). -/
structure VideoItem where
  id : Option String
  snippet : Option Snippet
  statistics : Option Statistics
  contentDetails : Option VideoContentDetails
deriving DecidableEq

/-- The `stats_to_keep` projection (main.py lines 103–112):
`video_info[key] = video.get(section, {}).get(key)` for the fixed allow-list
of keys, plus `video.get('id')`. -/
def extractVideoInfo (v : VideoItem) : RawVideo :=
  { video_id := v.id
    channelTitle := v.snippet.bind (fun s => s.channelTitle)
    title := v.snippet.bind (fun s => s.title)
    description := v.snippet.bind (fun s => s.description)
    tags := v.snippet.bind (fun s => s.tags)
    publishedAt := v.snippet.bind (fun s => s.publishedAt)
    viewCount := v.statistics.bind (fun s => s.viewCount)
    likeCount := v.statistics.bind (fun s => s.likeCount)
    favoriteCount := v.statistics.bind (fun s => s.favoriteCount)
    commentCount := v.statistics.bind (fun s => s.commentCount)
    duration := v.contentDetails.bind (fun c => c.duration)
    definition := v.contentDetails.bind (fun c => c.definition)
    caption := v.contentDetails.bind (fun c => c.caption) }

/-- Chunk splitting with a structural fuel (`fuel ≥ xs.length` always holds
at the call site, and one chunk consumes at least one element). -/
def chunksAux : Nat → List String → List (List String)
  | _, [] => []
  | 0, _ => []
  | n + 1, xs => xs.take 50 :: chunksAux n (xs.drop 50)

/-- The chunks `video_ids[i:i+50]` for `i in range(0, len(video_ids), 50)`
(main.py line 95): consecutive slices of at most 50 ids, in input order. -/
def chunks50 (xs : List String) : List (List String) :=
  chunksAux xs.length xs

/-- The rows one chunk contributes: the projected items of a successful
response; an `HttpError` is caught (main.py lines 113–114), logged, and the
chunk contributes nothing. -/
def chunkRows (provider : List String → Except ApiErr (List VideoItem))
    (c : List String) : List RawVideo :=
  match provider c with
  | Except.ok items => items.map extractVideoInfo
  | Except.error _ => []

/-- The chunk loop of `get_video_details`: one provider request per chunk
(each recorded in the first component), results appended in chunk order.
The `try`/`except` sits inside the loop, so a failing chunk does not stop
the iteration. -/
def detailsLoop (provider : List String → Except ApiErr (List VideoItem)) :
    List (List String) → List (List String) × List RawVideo
  | [] => ([], [])
  | c :: cs =>
    let rows := chunkRows provider c
    let (reqs, rest) := detailsLoop provider cs
    (c :: reqs, rows ++ rest)

/-- `get_video_details`, instrumented with the list of chunk requests it
issues: it walks `chunks50 video_ids` and returns the concatenated rows.
It returns a plain value: no exception escapes it. -/
def get_video_details (provider : List String → Except ApiErr (List VideoItem))
    (video_ids : List String) : List (List String) × List RawVideo :=
  detailsLoop provider (chunks50 video_ids)

/-! ## Channel statistics (`get_channel_stats`, main.py lines 35–60) -/

/-- The `snippet` section of a `channels().list` item (indexed
unconditionally at lines 50–51). -/
structure ChannelSnippet where
  title : Option String
  publishedAt : Option String
deriving DecidableEq

/-- The `statistics` section of a `channels().list` item. -/
structure ChannelStatistics where
  subscriberCount : Option String
  viewCount : Option String
  videoCount : Option String
deriving DecidableEq

/-- `item['contentDetails']['relatedPlaylists']` with its optional
`uploads` key. -/
structure RelatedPlaylists where
  uploads : Option String
deriving DecidableEq

/-- The `contentDetails` section of a `channels().list` item (both
`item['contentDetails']` and `['relatedPlaylists']` are indexed
unconditionally at line 55). -/
structure ChannelContentDetails where
  relatedPlaylists : RelatedPlaylists
deriving DecidableEq

/-- One item of a `channels().list` response. -/
structure ChannelItem where
  id : Option String
  snippet : ChannelSnippet
  statistics : ChannelStatistics
  contentDetails : ChannelContentDetails
deriving DecidableEq

/-- One row of the channel-statistics DataFrame. -/
structure ChannelRecord where
  channelId : Option String
  channelName : Option String
  publishedAt : Option String
  subscriberCount : Int
  viewCount : Int
  videoCount : Int
  uploadsPlaylistId : Option String
deriving DecidableEq

/-- Python `int(s)` on a string: an optionally signed digit run, else a
`ValueError`.  (Surrounding whitespace and underscores, which `int` also
accepts, are outside the model; no claim exercises them.) -/
def pyInt (s : String) : Except String Int :=
  match s.toList with
  | '-' :: ds =>
    if ds ≠ [] ∧ ds.all Char.isDigit then Except.ok (-(digitsVal ds : Int))
    else Except.error "ValueError"
  | '+' :: ds =>
    if ds ≠ [] ∧ ds.all Char.isDigit then Except.ok ((digitsVal ds : Int))
    else Except.error "ValueError"
  | ds =>
    if ds ≠ [] ∧ ds.all Char.isDigit then Except.ok ((digitsVal ds : Int))
    else Except.error "ValueError"

/-- `int(item['statistics'].get(key, 0))`: the default 0 for an absent key,
otherwise `int` of the string. -/
def intField (x : Option String) : Except String Int :=
  match x with
  | none => Except.ok 0
  | some s => pyInt s

/-- The dict built for one channel item (main.py lines 48–56); the `int`
calls may raise, and nothing inside `get_channel_stats` catches a
`ValueError`. -/
def channelRecordOfItem (it : ChannelItem) : Except String ChannelRecord := do
  let sub ← intField it.statistics.subscriberCount
  let vc ← intField it.statistics.viewCount
  let n ← intField it.statistics.videoCount
  Except.ok
    { channelId := it.id
      channelName := it.snippet.title
      publishedAt := it.snippet.publishedAt
      subscriberCount := sub
      viewCount := vc
      videoCount := n
      uploadsPlaylistId := it.contentDetails.relatedPlaylists.uploads }

/-- `get_channel_stats`: one unbatched request; an `HttpError` is caught and
yields the empty frame, while a `ValueError` from `int` escapes. -/
def get_channel_stats (resp : Except ApiErr (List ChannelItem)) :
    Except String (List ChannelRecord) :=
  match resp with
  | Except.error _ => Except.ok []
  | Except.ok items => items.mapM channelRecordOfItem

/-! ## Live-stream probe (`get_live_streams`, main.py lines 117–141) -/

/-- `item["id"]` of a search result (indexed unconditionally). -/
structure SearchId where
  videoId : Option String
deriving DecidableEq

/-- `item["snippet"]` of a search result (indexed unconditionally). -/
structure SearchSnippet where
  title : Option String
  publishedAt : Option String
deriving DecidableEq

/-- One item of a `search().list` response. -/
structure SearchItem where
  id : SearchId
  snippet : SearchSnippet
deriving DecidableEq

/-- One live-stream record (main.py lines 133–137). -/
structure LiveVideo where
  videoId : Option String
  title : Option String
  publishedAt : Option String
deriving DecidableEq

/-- `get_live_streams`: a single bounded query; an `HttpError` is caught and
yields the empty list. -/
def get_live_streams (resp : Except ApiErr (List SearchItem)) :
    List LiveVideo :=
  match resp with
  | Except.error _ => []
  | Except.ok items =>
    items.map (fun it => ⟨it.id.videoId, it.snippet.title, it.snippet.publishedAt⟩)

/-! ## Audience insights (`get_audience_insights`, main.py lines 172–212) -/

/-- An OAuth2 credential object (opaque to the pipeline). -/
structure Credentials where
  token : String
deriving DecidableEq

/-- One YouTube Analytics report response. -/
structure AnalyticsResponse where
  columnHeaders : List String
  rows : List (List String)
deriving DecidableEq

/-- One of the two tables `get_audience_insights` returns. -/
structure InsightsTable where
  headers : List String
  rows : List (List String)
deriving DecidableEq

/-- The value returned by `get_audience_insights`. -/
structure AudienceInsights where
  demographics : InsightsTable
  geography : InsightsTable
deriving DecidableEq

/-- `get_audience_insights`, instrumented with the list of report queries it
issues (identified by their `dimensions` argument): with no OAuth2
credentials it raises `ValueError` first thing, before building the
analytics client or issuing any query; otherwise it issues the demographics
query and then the geography query. -/
def get_audience_insights (analytics_credentials : Option Credentials)
    (provider : String → AnalyticsResponse) :
    List String × Except String AudienceInsights :=
  match analytics_credentials with
  | none =>
    ([], Except.error
      "OAuth2 credentials for YouTube Analytics are required for audience insights.")
  | some _ =>
    let demo := provider "ageGroup,gender"
    let geo := provider "country"
    (["ageGroup,gender", "country"],
     Except.ok ⟨⟨demo.columnHeaders, demo.rows⟩, ⟨geo.columnHeaders, geo.rows⟩⟩)

/-! ## Orchestration (`main`, main.py lines 214–255) -/

/-- The sentiment step (main.py line 240):
`all_videos_df['title'].apply(lambda x: analyze_sentiment(x))`.  The scorer
itself is a black box `text → polarity`; `TextBlob(None)` raises, so a row
with no title raises.  (When `preprocess_video_data` succeeded the frame is
nonempty, so the `'title'` column exists.) -/
def sentimentStep (analyze_sentiment : String → ℚ)
    (rows : List EnrichedVideo) : Except String (List (EnrichedVideo × ℚ)) :=
  rows.mapM (fun e =>
    match e.title with
    | some t => Except.ok (e, analyze_sentiment t)
    | none => Except.error "TypeError")

/-- The two tables `main` writes out. -/
structure MainOutput where
  videos : List (EnrichedVideo × ℚ)
  liveStreams : List (Option String × List LiveVideo)
deriving DecidableEq

/-- The `main` orchestration over explicit provider behaviour:
`channelsResp` is the `channels().list` response, `pagesOf pl` the page
sequence the provider serves when the uploads playlist id is `pl`,
`detailsProvider` the `videos().list` behaviour per chunk, and `liveOf` the
`search().list` behaviour per channel id.  An uncaught exception anywhere
(`ValueError` from `int`, `ISO8601Error` from the duration parse, `KeyError`
from the empty frame, `TypeError` from the sentiment step) aborts the run
with `Except.error`. -/
def main (channelsResp : Except ApiErr (List ChannelItem))
    (pagesOf : Option String → List (Except ApiErr Page))
    (detailsProvider : List String → Except ApiErr (List VideoItem))
    (liveOf : Option String → Except ApiErr (List SearchItem))
    (analyze_sentiment : String → ℚ) : Except String MainOutput := do
  let channel_stats ← get_channel_stats channelsResp
  let all_videos := channel_stats.foldl (fun acc ch =>
    let video_ids := get_video_ids (pagesOf ch.uploadsPlaylistId)
    if video_ids.isEmpty then acc
    else acc ++ (get_video_details detailsProvider video_ids).2) []
  let enriched ← preprocess_video_data all_videos
  let withSentiment ← sentimentStep analyze_sentiment enriched
  let live := channel_stats.map (fun ch =>
    (ch.channelName, get_live_streams (liveOf ch.channelId)))
  Except.ok ⟨withSentiment, live⟩

/-! ## Concrete fixtures used by witnesses and counterexamples -/

/-- A raw row with a well-formed view/like/comment triple. -/
def rRatio : RawVideo :=
  { video_id := some "v1", channelTitle := none, title := none,
    description := none, tags := none, publishedAt := none,
    viewCount := some "1000", likeCount := some "50",
    favoriteCount := none, commentCount := some "0",
    duration := none, definition := none, caption := none }

/-- The enrichment of `rRatio`. -/
def eRatio : EnrichedVideo :=
  { video_id := some "v1", channelTitle := none, title := none,
    description := none, tags := none, publishedAt := none,
    viewCount := 1000, likeCount := 50, favoriteCount := 0, commentCount := 0,
    duration := none, definition := none, caption := none,
    publishDayName := none, durationSecs := none, tagsCount := 0,
    likeRatio := 50, commentRatio := 0, titleLength := 0 }

/-- A raw row whose `viewCount` is the negative numeric string `"-5"`. -/
def rNegative : RawVideo :=
  { video_id := some "v2", channelTitle := none, title := none,
    description := none, tags := none, publishedAt := none,
    viewCount := some "-5", likeCount := none,
    favoriteCount := none, commentCount := none,
    duration := none, definition := none, caption := none }

/-- The enrichment of `rNegative`: the count passes through as `-5`. -/
def eNegative : EnrichedVideo :=
  { video_id := some "v2", channelTitle := none, title := none,
    description := none, tags := none, publishedAt := none,
    viewCount := -5, likeCount := 0, favoriteCount := 0, commentCount := 0,
    duration := none, definition := none, caption := none,
    publishDayName := none, durationSecs := none, tagsCount := 0,
    likeRatio := 0, commentRatio := 0, titleLength := 0 }

/-- A raw row with a present but unparseable ISO-8601 duration. -/
def rBadDuration : RawVideo :=
  { video_id := some "v3", channelTitle := none, title := none,
    description := none, tags := none, publishedAt := none,
    viewCount := none, likeCount := none,
    favoriteCount := none, commentCount := none,
    duration := some "not-a-duration", definition := none, caption := none }

/-- A raw row with a parseable duration and timestamp. -/
def rGood : RawVideo :=
  { video_id := some "v4", channelTitle := none, title := some "ok",
    description := none, tags := none,
    publishedAt := some "2024-03-11T12:00:00Z",
    viewCount := some "10", likeCount := some "1",
    favoriteCount := none, commentCount := none,
    duration := some "PT1H2M10S", definition := none, caption := none }

/-- The enrichment of `rGood`. -/
def eGood : EnrichedVideo :=
  { video_id := some "v4", channelTitle := none, title := some "ok",
    description := none, tags := none,
    publishedAt := some ⟨2024, 3, 11, 12, 0, 0⟩,
    viewCount := 10, likeCount := 1, favoriteCount := 0, commentCount := 0,
    duration := some "PT1H2M10S", definition := none, caption := none,
    publishDayName := some "Monday", durationSecs := some 3730, tagsCount := 0,
    likeRatio := 100, commentRatio := 0, titleLength := 2 }

/-- First chunk of the three-chunk batching fixture: fifty ids `"a"`. -/
def chunkA : List String := List.replicate 50 "a"

/-- Second chunk: fifty ids `"b"`. -/
def chunkB : List String := List.replicate 50 "b"

/-- Third chunk: the single id `"c"`. -/
def chunkC : List String := ["c"]

/-- 101 ids, so that `chunks50` yields exactly `[chunkA, chunkB, chunkC]`. -/
def idsABC : List String := chunkA ++ chunkB ++ chunkC

/-- A response item for the first chunk. -/
def itemA : VideoItem := ⟨some "a", none, none, none⟩

/-- A response item for the third chunk. -/
def itemC : VideoItem := ⟨some "c", none, none, none⟩

/-- A provider that succeeds on the first and third fixture chunks and fails
on the second. -/
def provMidFail : List String → Except ApiErr (List VideoItem) :=
  fun c =>
    if c.head? = some "b" then Except.error ⟨500, "backendError"⟩
    else if c.head? = some "a" then Except.ok [itemA]
    else Except.ok [itemC]

/-- A playlist page carrying one id and a next-page token. -/
def pageOne : Page := ⟨[⟨⟨some "p1"⟩⟩], some "tok1"⟩

/-- A second playlist page carrying two ids and a next-page token. -/
def pageTwo : Page := ⟨[⟨⟨some "p2"⟩⟩, ⟨⟨some "p3"⟩⟩], some "tok2"⟩

/-- A playlist page mixing items with and without the `videoId` field. -/
def pageMixed : Page := ⟨[⟨⟨some "m1"⟩⟩, ⟨⟨none⟩⟩, ⟨⟨some "m2"⟩⟩], none⟩

/-- A channel item with no usable uploads playlist id. -/
def chanNoUploads1 : ChannelItem :=
  ⟨some "UC1", ⟨some "Channel One", none⟩, ⟨none, none, none⟩, ⟨⟨none⟩⟩⟩

/-- A second channel item with no usable uploads playlist id. -/
def chanNoUploads2 : ChannelItem :=
  ⟨some "UC2", ⟨some "Channel Two", none⟩, ⟨none, none, none⟩, ⟨⟨none⟩⟩⟩

/-! # Theorems

Shared helper lemmas first, then one theorem per claim (with its witness or
counterexample).  The arithmetic of `ℚ` is sealed by default; opening it up
lets `decide` evaluate the embedded pipeline on concrete inputs. -/

unseal Rat.add Rat.mul Rat.inv

/-- With enough fuel, the chunks of `chunksAux` concatenate back to the
input. -/
theorem chunksAux_join (n : Nat) (xs : List String) (h : xs.length ≤ n) :
    (chunksAux n xs).flatten = xs := by
  induction n generalizing xs with
  | zero =>
    cases xs with
    | nil => rfl
    | cons a as =>
      simp only [List.length_cons, Nat.le_zero] at h
      exact absurd h (Nat.succ_ne_zero _)
  | succ n ih =>
    cases xs with
    | nil => rfl
    | cons a as =>
      have hlen : ((a :: as).drop 50).length ≤ n := by
        simp only [List.length_drop, List.length_cons] at h ⊢
        omega
      simp only [chunksAux, List.flatten_cons, ih _ hlen]
      exact List.take_append_drop 50 (a :: as)

/-- With enough fuel, `chunksAux` produces `⌈length/50⌉` chunks. -/
theorem chunksAux_length (n : Nat) (xs : List String) (h : xs.length ≤ n) :
    (chunksAux n xs).length = (xs.length + 49) / 50 := by
  induction n generalizing xs with
  | zero =>
    cases xs with
    | nil => rfl
    | cons a as =>
      simp only [List.length_cons, Nat.le_zero] at h
      exact absurd h (Nat.succ_ne_zero _)
  | succ n ih =>
    cases xs with
    | nil => rfl
    | cons a as =>
      have hlen : ((a :: as).drop 50).length ≤ n := by
        simp only [List.length_drop, List.length_cons] at h ⊢
        omega
      simp only [chunksAux, List.length_cons, ih _ hlen, List.length_drop,
        List.length_cons]
      omega

/-- Every chunk `chunksAux` produces has at most 50 elements. -/
theorem chunksAux_le_50 (n : Nat) (xs : List String) :
    ∀ c ∈ chunksAux n xs, c.length ≤ 50 := by
  induction n generalizing xs with
  | zero =>
    intro c hc
    cases xs <;> simp [chunksAux] at hc
  | succ n ih =>
    intro c hc
    cases xs with
    | nil => simp [chunksAux] at hc
    | cons a as =>
      simp only [chunksAux, List.mem_cons] at hc
      rcases hc with rfl | hc
      · simp only [List.length_take]
        omega
      · exact ih _ c hc

/-- The chunks of `chunks50` concatenate back to the input. -/
theorem chunks50_join (xs : List String) : (chunks50 xs).flatten = xs :=
  chunksAux_join xs.length xs le_rfl

/-- `chunks50` produces `⌈length/50⌉` chunks. -/
theorem chunks50_length (xs : List String) :
    (chunks50 xs).length = (xs.length + 49) / 50 :=
  chunksAux_length xs.length xs le_rfl

/-- Every chunk of `chunks50` has at most 50 elements. -/
theorem chunks50_le_50 (xs : List String) : ∀ c ∈ chunks50 xs, c.length ≤ 50 :=
  chunksAux_le_50 xs.length xs

/-- The chunk loop requests exactly its chunk list, in order, independent of
how the provider answers. -/
theorem detailsLoop_fst (provider : List String → Except ApiErr (List VideoItem))
    (cs : List (List String)) : (detailsLoop provider cs).1 = cs := by
  induction cs with
  | nil => rfl
  | cons c cs ih => simp [detailsLoop, ih]

/-- The chunk loop returns the per-chunk rows concatenated in chunk order. -/
theorem detailsLoop_snd (provider : List String → Except ApiErr (List VideoItem))
    (cs : List (List String)) :
    (detailsLoop provider cs).2 = (cs.map (chunkRows provider)).flatten := by
  induction cs with
  | nil => rfl
  | cons c cs ih => simp [detailsLoop, ih]

/-- Joining a map that always produces the empty list yields the empty
list. -/
theorem join_map_nil {α β : Type} (f : α → List β) (l : List α)
    (h : ∀ a, f a = []) : (l.map f).flatten = [] := by
  induction l with
  | nil => rfl
  | cons a l ih => simp [h, ih]

/-- Unpacks a successful `enrichRow`: every column of the enriched row in
terms of the raw row. -/
theorem enrichRow_fields (r : RawVideo) (e : EnrichedVideo)
    (h : enrichRow r = Except.ok e) :
    e.viewCount = coerceCount r.viewCount ∧
    e.likeCount = coerceCount r.likeCount ∧
    e.favoriteCount = coerceCount r.favoriteCount ∧
    e.commentCount = coerceCount r.commentCount ∧
    e.publishedAt = to_datetime r.publishedAt ∧
    e.publishDayName = (to_datetime r.publishedAt).map weekdayName ∧
    durationStep r.duration = Except.ok e.durationSecs ∧
    e.likeRatio = (if coerceCount r.viewCount = 0 then 0
      else (coerceCount r.likeCount : ℚ) / (coerceCount r.viewCount : ℚ) * 1000) ∧
    e.commentRatio = (if coerceCount r.viewCount = 0 then 0
      else (coerceCount r.commentCount : ℚ) / (coerceCount r.viewCount : ℚ) * 1000) := by
  cases hd : durationStep r.duration with
  | error msg => simp [enrichRow, hd] at h
  | ok d =>
    simp only [enrichRow, hd, Except.ok.injEq] at h
    subst h
    exact ⟨rfl, rfl, rfl, rfl, rfl, rfl, rfl, rfl, rfl⟩

/-- Claim C4: for every input sequence of N video identifiers,
`get_video_details` partitions it into consecutive chunks of at most 50 in
input order (the chunks concatenate back to the input), issues exactly
`⌈N/50⌉` provider requests — one per chunk, in chunk order, zero requests
when N = 0 — and returns the per-chunk results concatenated in chunk
order. -/
theorem get_video_details_batching
    (provider : List String → Except ApiErr (List VideoItem))
    (ids : List String) :
    (get_video_details provider ids).1 = chunks50 ids ∧
    (get_video_details provider ids).1.length = (ids.length + 49) / 50 ∧
    (chunks50 ids).flatten = ids ∧
    (∀ c ∈ chunks50 ids, c.length ≤ 50) ∧
    (get_video_details provider ids).2 =
      ((chunks50 ids).map (chunkRows provider)).flatten := by
  simp only [get_video_details]
  refine ⟨detailsLoop_fst provider (chunks50 ids), ?_, chunks50_join ids,
    chunks50_le_50 ids, detailsLoop_snd provider (chunks50 ids)⟩
  rw [detailsLoop_fst provider (chunks50 ids)]
  exact chunks50_length ids

/-- Witness for C4: at 101 concrete identifiers the fetch issues exactly
three chunk requests, `⌈101/50⌉ = 3`. -/
theorem get_video_details_batching_witness :
    (get_video_details provMidFail idsABC).1 = chunks50 idsABC ∧
    chunks50 idsABC = [chunkA, chunkB, chunkC] ∧
    (get_video_details provMidFail idsABC).1.length = 3 := by
  have h := get_video_details_batching provMidFail idsABC
  exact ⟨h.1, by decide, h.2.1.trans (by decide)⟩

/-- Claim C3: in the video-detail fetch a provider failure on one chunk is
isolated: the failing chunk contributes zero records, the failure is not
raised (the fetch still returns its plain row list), every chunk — including
those after the failure — is still requested, and when chunk 2 of 3 fails
the returned rows are exactly the rows of chunk 1 followed by the rows of
chunk 3. -/
theorem get_video_details_failure_isolated
    (provider : List String → Except ApiErr (List VideoItem))
    (ids c1 c2 c3 : List String) (err : ApiErr)
    (items1 items3 : List VideoItem)
    (hchunks : chunks50 ids = [c1, c2, c3])
    (h1 : provider c1 = Except.ok items1)
    (h2 : provider c2 = Except.error err)
    (h3 : provider c3 = Except.ok items3) :
    (get_video_details provider ids).1 = [c1, c2, c3] ∧
    chunkRows provider c2 = [] ∧
    (get_video_details provider ids).2 =
      items1.map extractVideoInfo ++ items3.map extractVideoInfo := by
  simp only [get_video_details, hchunks]
  refine ⟨detailsLoop_fst provider _, ?_, ?_⟩
  · simp [chunkRows, h2]
  · simp [detailsLoop, chunkRows, h1, h2, h3]

/-- Witness for C3: concrete three-chunk input whose middle chunk fails;
the rows are those of chunks 1 and 3. -/
theorem get_video_details_failure_isolated_witness :
    (get_video_details provMidFail idsABC).1 = [chunkA, chunkB, chunkC] ∧
    chunkRows provMidFail chunkB = [] ∧
    (get_video_details provMidFail idsABC).2 =
      [itemA].map extractVideoInfo ++ [itemC].map extractVideoInfo :=
  get_video_details_failure_isolated provMidFail idsABC chunkA chunkB chunkC
    ⟨500, "backendError"⟩ [itemA] [itemC] (by decide) (by decide) (by decide)
    (by decide)

/-- Claim C5: during paginated id collection, a provider-level failure on
any page aborts the whole collection for that listing source: when the pages
before the failure all carry a truthy next-page cursor, the collector
returns exactly the identifiers accumulated from those pages, whatever
responses would have followed — and, returning a plain list, it logs rather
than raises the failure. -/
theorem get_video_ids_failure_aborts (ps : List Page) (err : ApiErr)
    (rest : List (Except ApiErr Page))
    (h : ∀ p ∈ ps, truthyToken p.nextPageToken = true) :
    get_video_ids (ps.map Except.ok ++ Except.error err :: rest) =
      (ps.map pageIds).flatten := by
  induction ps with
  | nil => rfl
  | cons p ps ih =>
    simp only [List.map_cons, List.cons_append, get_video_ids,
      List.flatten_cons, List.append_eq]
    rw [h p (List.mem_cons_self p ps), if_pos rfl,
      ih (fun q hq => h q (List.mem_cons_of_mem p hq))]

/-- Witness for C5: two successful pages followed by a failing one yield
exactly the three ids of the first two pages. -/
theorem get_video_ids_failure_aborts_witness :
    get_video_ids ([pageOne, pageTwo].map Except.ok ++
        Except.error ⟨500, "backendError"⟩ :: []) = ["p1", "p2", "p3"] := by
  have h := get_video_ids_failure_aborts [pageOne, pageTwo]
    ⟨500, "backendError"⟩ [] (by decide)
  exact h.trans (by decide)

/-- Claim C8: during paginated collection, a response item lacking the inner
`videoId` field is skipped without error: it contributes no identifier, the
surrounding items of its page still contribute theirs, and the traversal
still proceeds to subsequent pages exactly as the page's cursor dictates
(no exception escapes: the collector returns a plain list). -/
theorem get_video_ids_skips_missing_field
    (pre post : List PlaylistItem) (it : PlaylistItem) (tok : Option String)
    (rest : List (Except ApiErr Page))
    (hit : it.contentDetails.videoId = none) :
    pageIds ⟨pre ++ it :: post, tok⟩ = pageIds ⟨pre ++ post, tok⟩ ∧
    get_video_ids (Except.ok ⟨pre ++ it :: post, tok⟩ :: rest) =
      pageIds ⟨pre ++ post, tok⟩ ++
        (if truthyToken tok then get_video_ids rest else []) := by
  have h1 : pageIds ⟨pre ++ it :: post, tok⟩ = pageIds ⟨pre ++ post, tok⟩ := by
    simp [pageIds, List.filterMap_append, hit]
  exact ⟨h1, by simp only [get_video_ids]; rw [h1]⟩

/-- Witness for C8: the middle item of `pageMixed` has no `videoId` field
and is skipped; the page still contributes its other two ids. -/
theorem get_video_ids_skips_missing_field_witness :
    pageIds ⟨[⟨⟨some "m1"⟩⟩, ⟨⟨none⟩⟩, ⟨⟨some "m2"⟩⟩], none⟩ =
      pageIds ⟨[⟨⟨some "m1"⟩⟩, ⟨⟨some "m2"⟩⟩], none⟩ ∧
    get_video_ids
        [Except.ok ⟨[⟨⟨some "m1"⟩⟩, ⟨⟨none⟩⟩, ⟨⟨some "m2"⟩⟩], none⟩] =
      pageIds ⟨[⟨⟨some "m1"⟩⟩, ⟨⟨some "m2"⟩⟩], none⟩ ++
        (if truthyToken none then get_video_ids [] else []) :=
  get_video_ids_skips_missing_field [⟨⟨some "m1"⟩⟩] [⟨⟨some "m2"⟩⟩]
    ⟨⟨none⟩⟩ none [] rfl

/-- Claim C2: for every enriched record, a zero `viewCount` forces both
ratios to 0 (the guard, not a division fault), and a positive `viewCount`
gives `count / viewCount * 1000` for both ratios. -/
theorem enrich_ratio_guard (r : RawVideo) (e : EnrichedVideo)
    (h : enrichRow r = Except.ok e) :
    (e.viewCount = 0 → e.likeRatio = 0 ∧ e.commentRatio = 0) ∧
    (0 < e.viewCount →
      e.likeRatio = (e.likeCount : ℚ) / (e.viewCount : ℚ) * 1000 ∧
      e.commentRatio = (e.commentCount : ℚ) / (e.viewCount : ℚ) * 1000) := by
  obtain ⟨hv, hl, -, hc, -, -, -, hlr, hcr⟩ := enrichRow_fields r e h
  constructor
  · intro h0
    rw [hv] at h0
    rw [hlr, hcr, if_pos h0, if_pos h0]
    exact ⟨rfl, rfl⟩
  · intro hpos
    rw [hv] at hpos
    have hne : ¬(coerceCount r.viewCount = 0) := by omega
    rw [hlr, hcr, if_neg hne, if_neg hne, hv, hl, hc]
    exact ⟨rfl, rfl⟩

/-- Witness for C2: the record with 1000 views and 50 likes has
`likeRatio = 50` per thousand views. -/
theorem enrich_ratio_guard_witness :
    eRatio.likeRatio = (eRatio.likeCount : ℚ) / (eRatio.viewCount : ℚ) * 1000 ∧
    eRatio.likeRatio = 50 := by
  have h := (enrich_ratio_guard rRatio eRatio (by decide)).2
    (by decide)
  exact ⟨h.1, by decide⟩

/-- Claim C7 counterexample: the record `rNegative`, whose raw `viewCount`
is the numeric string `"-5"`, enriches to `viewCount = -5 < 0`, so the count
fields of an enriched record are not always non-negative. -/
theorem enrich_count_can_be_negative :
    enrichRow rNegative = Except.ok eNegative ∧ eNegative.viewCount < 0 :=
  ⟨by decide, by decide⟩

/-- Claim C7 (amended): after enrichment each of the four count fields
equals the integer coercion of its raw cell — absent or unparseable input
coerces to 0, and the fields being integers, null never propagates — and the
coerced value is non-negative whenever the raw cell parses to a non-negative
number (a negative numeric input passes through unchanged). -/
theorem enrich_count_coercion (r : RawVideo) (e : EnrichedVideo)
    (h : enrichRow r = Except.ok e) :
    (e.viewCount = coerceCount r.viewCount ∧
     e.likeCount = coerceCount r.likeCount ∧
     e.favoriteCount = coerceCount r.favoriteCount ∧
     e.commentCount = coerceCount r.commentCount) ∧
    coerceCount none = 0 ∧
    (∀ s, toNumeric s = none → coerceCount (some s) = 0) ∧
    (∀ s q, toNumeric s = some q → 0 ≤ q → 0 ≤ coerceCount (some s)) := by
  obtain ⟨hv, hl, hf, hc, -⟩ := enrichRow_fields r e h
  refine ⟨⟨hv, hl, hf, hc⟩, rfl, ?_, ?_⟩
  · intro s hs
    simp [coerceCount, hs]
  · intro s q hq hq0
    simp only [coerceCount, hq]
    unfold truncInt
    rw [if_neg (not_lt.mpr hq0)]
    exact Rat.le_floor.mpr (by exact_mod_cast hq0)

/-- Witness for C7 (amended): concrete coercions — a parsed count, the
absent cell, and an unparseable cell. -/
theorem enrich_count_coercion_witness :
    eGood.viewCount = coerceCount rGood.viewCount ∧
    coerceCount none = 0 ∧ coerceCount (some "abc") = 0 := by
  have h := enrich_count_coercion rGood eGood (by decide)
  exact ⟨h.1.1, h.2.1, h.2.2.1 "abc" (by decide)⟩

/-- Claim C1 (code bug): the example duration `"PT1H2M10S"` does parse to
3730 total seconds and an absent duration does yield null, but a present,
unparseable duration is guarded only by `pd.notnull`, so
`isodate.parse_duration` raises an uncaught `ISO8601Error` and the whole
preprocessing call halts: the row `rBadDuration` aborts the batch even
though its sibling row `rGood` is well-formed. -/
theorem preprocess_bad_duration_raises :
    durationStep (some "PT1H2M10S") = Except.ok (some 3730) ∧
    durationStep none = Except.ok none ∧
    durationStep (some "not-a-duration") = Except.error "ISO8601Error" ∧
    preprocess_video_data [rGood, rBadDuration] =
      Except.error "ISO8601Error" :=
  ⟨by decide, rfl, by decide,
   by decide⟩

/-- Claim C9: the derived `publishDayName` is the weekday name of the parsed
`publishedAt` timestamp (locale-invariant English, the example timestamp
giving "Monday"), it is null when `publishedAt` is absent or unparseable,
and an unparseable timestamp never makes a row fail: a record differing only
in `publishedAt` enriches whenever the original did. -/
theorem enrich_publish_day_name (r : RawVideo) (e : EnrichedVideo)
    (h : enrichRow r = Except.ok e) :
    e.publishDayName = (to_datetime r.publishedAt).map weekdayName ∧
    (to_datetime (some "2024-03-11T12:00:00Z")).map weekdayName =
      some "Monday" ∧
    to_datetime (some "not-a-date") = none ∧
    (∀ s : Option String, ∃ e2,
      enrichRow { r with publishedAt := s } = Except.ok e2 ∧
      e2.publishDayName = (to_datetime s).map weekdayName) := by
  obtain ⟨-, -, -, -, -, hday, hdur, -, -⟩ := enrichRow_fields r e h
  refine ⟨hday, by decide, by decide, ?_⟩
  intro s
  have hdur2 : durationStep ({ r with publishedAt := s } : RawVideo).duration
      = Except.ok e.durationSecs := hdur
  refine ⟨enrichRowWith { r with publishedAt := s } e.durationSecs, ?_, rfl⟩
  simp only [enrichRow, hdur2]

/-- Witness for C9: `rGood` publishes on 2024-03-11 and its enriched
`publishDayName` is "Monday"; an unparseable timestamp parses to null. -/
theorem enrich_publish_day_name_witness :
    eGood.publishDayName = some "Monday" ∧
    to_datetime (some "not-a-date") = none := by
  have h := enrich_publish_day_name rGood eGood (by decide)
  exact ⟨h.1.trans (by decide), h.2.2.1⟩

/-- Claim C6 (code bug): when every channel contributes zero video rows —
here two channels without a usable uploads playlist id, whose id collections
then fail with a provider error on the first page — the combined video frame
is empty and therefore has no columns, so `preprocess_video_data` raises
`KeyError` on `video_df['viewCount']` and the run aborts instead of emitting
the output tables. -/
theorem main_crashes_when_all_channels_empty :
    main (Except.ok [chanNoUploads1, chanNoUploads2])
      (fun _ => [Except.error ⟨404, "playlistNotFound"⟩])
      (fun _ => Except.error ⟨500, "unused"⟩)
      (fun _ => Except.ok [])
      (fun _ => 0) = Except.error "KeyError: viewCount" := by decide

/-- Claim C10: calling `get_audience_insights` with analytics credentials
absent errors out immediately, before any provider query is issued (the
issued-query log is empty), whereas every other provider-facing operation
absorbs a provider failure into an empty result rather than raising. -/
theorem audience_insights_missing_credentials_fatal
    (provider : String → AnalyticsResponse) :
    (get_audience_insights none provider).1 = [] ∧
    (get_audience_insights none provider).2 =
      Except.error
        "OAuth2 credentials for YouTube Analytics are required for audience insights." ∧
    (∀ err : ApiErr, get_channel_stats (Except.error err) = Except.ok []) ∧
    (∀ err : ApiErr, get_video_ids [Except.error err] = []) ∧
    (∀ (err : ApiErr) (ids : List String),
      (get_video_details (fun _ => Except.error err) ids).2 = []) ∧
    (∀ err : ApiErr, get_live_streams (Except.error err) = []) := by
  refine ⟨rfl, rfl, fun _ => rfl, fun _ => rfl, ?_, fun _ => rfl⟩
  intro err ids
  simp only [get_video_details, detailsLoop_snd]
  exact join_map_nil _ _ (fun c => rfl)

/-- Witness for C10: a concrete provider; no credentials means no queries
and the `ValueError`. -/
theorem audience_insights_missing_credentials_fatal_witness :
    (get_audience_insights none (fun _ => ⟨[], []⟩)).1 = [] ∧
    (get_audience_insights none (fun _ => ⟨[], []⟩)).2 =
      Except.error
        "OAuth2 credentials for YouTube Analytics are required for audience insights." ∧
    get_video_ids [Except.error ⟨403, "forbidden"⟩] = [] := by
  have h := audience_insights_missing_credentials_fatal (fun _ => ⟨[], []⟩)
  exact ⟨h.1, h.2.1, h.2.2.2.1 ⟨403, "forbidden"⟩⟩

end NewsAI
